import Mathlib

/-!
Verification of the Lisp-Interpreter repository (src/lis.py, src/lispy.py)
against its natural-language specification.

The repository contains two Python 3 interpreters:
* `lis.py` — a minimal Scheme interpreter with a recursive `eval`;
* `lispy.py` — a richer interpreter with an iterative (trampolined) `eval`,
  an `InPort`-based reader, an `expand` stub, a `let` macro function and a
  `callcc` function.

Python values are embedded shallowly: Scheme data is the inductive `Value`
below, Python exceptions are the `PyErr` type threaded through `Except`,
environments are frames held in a `Store` addressed by numeric ids (Python
object references), and the unbounded `while True` evaluator loop is given
an explicit fuel parameter (`PyErr.outOfFuel` signals only that the fuel ran
out, never a real Python outcome).  Python's bounded call stack is an
explicit `stack` parameter: tail continuations of the `lispy.py` loop keep
it, genuinely recursive `eval` calls decrement it, and exhausting it yields
`PyErr.recursionError` (Python's RecursionError).
-/

/-- Primitive procedures installed by `standard_env` in both source files
(the dict literal is identical in `lis.py` and `lispy.py`). -/
inductive Prim where
  | add | sub | mul | div
  | gt | lt | ge | le | eq
  | abs | append | beginP | car | cdr | consP
  | isIdentical   -- the source's eq-question entry, `op.is_`
  | equalP | len | listP | isList | mapP | maxP | minP
  | notP | isNull | isNumber | isProcedure | roundP | isSymbol
deriving DecidableEq

/-- Scheme/Python runtime values of the interpreters.

`sym` is an interned `Symbol` (a `str` subclass), kept distinct from plain
Python strings `str` because the sources test `isinstance(x, Symbol)`.
`floatLit` and `complexLit` carry the literal text a numeric token was
parsed from: IEEE floats and Python's complex normalisation are not
modelled, and no claim below depends on float or complex arithmetic.
`closure` is `Procedure(parms, exp, env)` with the defining environment
held as a store id.  `none` is Python's `None`, the result of `define`,
`set!` and of the `expand` stub. -/
inductive Value where
  | sym (s : String)
  | str (s : String)
  | bool (b : Bool)
  | int (n : Int)
  | floatLit (s : String)
  | complexLit (s : String)
  | list (xs : List Value)
  | closure (parms : Value) (body : Value) (envId : Nat)
  | prim (p : Prim)
  | none

/-- Python exceptions raised by the interpreters.  `outOfFuel` is the
artefact of the fuel parameter (no Python counterpart); `notModelled` marks
the few primitive corners (float arithmetic, object identity of lists, the
lazy `map` object) that the embedding deliberately leaves abstract — no
claim depends on them. -/
inductive PyErr where
  | lookupError (s : String)
  | typeError (s : String)
  | syntaxError (s : String)
  | valueError (s : String)
  | attributeError (s : String)
  | indexError (s : String)
  | recursionError
  | outOfFuel
  | notModelled (s : String)
deriving DecidableEq

/-- One environment frame: the `dict` part of an `Env` object.  Keys are the
strings of the `Symbol`/`str` keys actually used by the sources; entries
added later shadow earlier ones, matching `dict.update`. -/
abbrev Frame := List (String × Value)

/-- Dictionary lookup in a frame: the most recently inserted binding wins. -/
def Frame.get : Frame → String → Option Value
  | [], _ => Option.none
  | (k, v) :: r, x => if k = x then some v else Frame.get r x

/-- Dictionary insertion (`dict.__setitem__` / one `update` pair). -/
def Frame.insert (f : Frame) (k : String) (v : Value) : Frame := (k, v) :: f

/-- An `Env` object of `lispy.py`: its dict together with `self.outer`,
a reference to the parent `Env` (a store id) or `None`. -/
structure EnvObj where
  entries : Frame
  outer : Option Nat

/-- The heap of `Env` objects; a new `Env(...)` is appended at the end and
its id is the previous length, so `outer` ids are always smaller than the
id of the frame that references them. -/
abbrev Store := List EnvObj

/-- Entries of the `standard_env()` dict literal, identical in `lis.py`
and `lispy.py`, in source order.  The preceding `env.update(vars(math))`
populates the frame with the names of Python's `math` module (IEEE-float
constants and native functions); those entries are unrepresentable here and
are not referenced by any claim, so they are omitted — none of the names
looked up by the theorems below (`+`, `-`, `=`, `loop`, `n`, `foo`,
`call/cc`, `and`, `define-macro`, `let`) occurs in `math`. -/
def stdEntries : Frame :=
  [ ("+", .prim .add), ("-", .prim .sub), ("*", .prim .mul), ("/", .prim .div),
    (">", .prim .gt), ("<", .prim .lt), (">=", .prim .ge), ("<=", .prim .le),
    ("=", .prim .eq),
    ("abs", .prim .abs),
    ("append", .prim .append),
    ("begin", .prim .beginP),
    ("car", .prim .car),
    ("cdr", .prim .cdr),
    ("cons", .prim .consP),
    ("eq?", .prim .isIdentical),
    ("equal?", .prim .equalP),
    ("length", .prim .len),
    ("list", .prim .listP),
    ("list?", .prim .isList),
    ("map", .prim .mapP),
    ("max", .prim .maxP),
    ("min", .prim .minP),
    ("not", .prim .notP),
    ("null?", .prim .isNull),
    ("number?", .prim .isNumber),
    ("procedure?", .prim .isProcedure),
    ("round", .prim .roundP),
    ("symbol?", .prim .isSymbol) ]

/-- Python `==` on the values in play (`op.eq`, also used by `equal?` and
`null?`).  `Symbol` is a `str` subclass, so symbols and strings with equal
text are `==`-equal; `True`/`False` are the integers 1/0; lists compare
elementwise.  Comparisons involving float or complex literals are not
modelled (no claim performs one): they compare unequal here only against
values no claim ever compares them with. -/
def pyEq : Value → Value → Bool
  | .int a, .int b => a = b
  | .bool a, .bool b => a = b
  | .bool a, .int b => (if a then (1 : Int) else 0) = b
  | .int a, .bool b => a = (if b then (1 : Int) else 0)
  | .sym a, .sym b => a = b
  | .sym a, .str b => a = b
  | .str a, .sym b => a = b
  | .str a, .str b => a = b
  | .none, .none => true
  | .list a, .list b => pyEqList a b
  | _, _ => false
where
  /-- Elementwise `==` on Python lists. -/
  pyEqList : List Value → List Value → Bool
  | [], [] => true
  | a :: as', b :: bs' => pyEq a b && pyEqList as' bs'
  | _, _ => false

/-- Python truthiness (`bool(x)`), used by the `if` branch of `eval` and by
`op.not_`.  A float literal is falsy when its mantissa digits are all zero
(underflow of tiny nonzero literals is not modelled; no claim branches on a
float). -/
def truthy : Value → Bool
  | .bool b => b
  | .int n => n ≠ 0
  | .sym s => s ≠ ""
  | .str s => s ≠ ""
  | .list xs => !xs.isEmpty
  | .none => false
  | .floatLit s => (s.toList.filter Char.isDigit).any (· ≠ '0')
  | .complexLit _ => true
  | .closure _ _ _ => true
  | .prim _ => true

/-- Value of a nonempty run of decimal digits. -/
def digitsToNat (cs : List Char) : Nat :=
  cs.foldl (fun a c => a * 10 + (c.toNat - '0'.toNat)) 0

/-- Nonempty all-digit character run. -/
def isDigits (cs : List Char) : Bool := !cs.isEmpty && cs.all Char.isDigit

/-- Python `int(token)` on a bare token: optional sign then digits
(digit-group underscores, never produced by the reader, are ignored). -/
def intParse (s : String) : Option Int :=
  match s.toList with
  | '-' :: rest => if isDigits rest then some (-(digitsToNat rest : Int)) else Option.none
  | '+' :: rest => if isDigits rest then some ((digitsToNat rest : Int)) else Option.none
  | cs => if isDigits cs then some ((digitsToNat cs : Int)) else Option.none

/-- Drop one leading sign character. -/
def stripSign : List Char → List Char
  | '+' :: r => r
  | '-' :: r => r
  | r => r

/-- Mantissa of a Python float literal: `digits`, `digits.digits`,
`digits.` or `.digits`. -/
def mantissaOk (cs : List Char) : Bool :=
  match cs.splitOn '.' with
  | [d] => isDigits d
  | [d1, d2] => d1.all Char.isDigit && d2.all Char.isDigit && (!d1.isEmpty || !d2.isEmpty)
  | _ => false

/-- Whether Python `float(token)` accepts the token: signed mantissa with an
optional signed decimal exponent, or `inf`/`infinity`/`nan` in any case.
Every theorem below parses only integer, boolean and symbol tokens, so only
the rejecting behaviour of this recognizer is ever exercised. -/
def floatAccepts (s : String) : Bool :=
  let cs := stripSign s.toLower.toList
  if cs = "inf".toList || cs = "infinity".toList || cs = "nan".toList then true
  else
    match cs.splitOn 'e' with
    | [m] => mantissaOk m
    | [m, ex] => mantissaOk m && isDigits (stripSign ex)
    | _ => false

/-- A float-literal body without an exponent, used inside complex literals. -/
def plainNumOk (cs : List Char) : Bool := mantissaOk (stripSign cs)

/-- Whether Python `complex(t)` accepts the token (after `atom`'s
`replace('i', 'j', 1)`): `[sign][num]j` or `[num][sign][num]j` with
exponent-free components.  Exponent forms such as `1e+5j` are not
recognized; no theorem below parses a complex token at all. -/
def complexAccepts (s : String) : Bool :=
  match s.toLower.toList.getLast? with
  | some 'j' =>
    let body := s.toLower.toList.dropLast
    if body.isEmpty || plainNumOk body then true
    else
      (List.range body.length).any fun i =>
        0 < i && (body.get? i = some '+' || body.get? i = some '-') &&
          plainNumOk (body.take i) && isDigits (body.drop (i + 1)) ||
          (body.drop (i + 1)).isEmpty && plainNumOk (body.take i) &&
            (body.get? i = some '+' || body.get? i = some '-') && 0 < i
  | _ => false

/-- Python `token.replace('i', 'j', 1)`: replace the first `i` only. -/
def replaceFirstIJ : List Char → List Char
  | [] => []
  | 'i' :: r => 'j' :: r
  | c :: r => c :: replaceFirstIJ r

/-- The `atom` function of `lispy.py` (lines 109-128).  `#t`/`#f` become
booleans; a leading-quote token takes the string branch, whose
`token[1:-1].decode('unicode_escape')` raises `AttributeError` under
Python 3 (`str` has no `decode` method); then `int`, `float`, `complex`
and finally an interned `Symbol`. -/
def atom (token : String) : Except PyErr Value :=
  if token = "#t" then .ok (.bool true)
  else if token = "#f" then .ok (.bool false)
  else
    match token.toList with
    | [] => .error (.indexError "string index out of range")
    | c :: _ =>
      if c = '"' then .error (.attributeError "str object has no attribute decode")
      else
        match intParse token with
        | some n => .ok (.int n)
        | Option.none =>
          if floatAccepts token then .ok (.floatLit token)
          else
            let t2 := String.mk (replaceFirstIJ token.toList)
            if complexAccepts t2 then .ok (.complexLit t2)
            else .ok (.sym token)

/-- The `atom` function of `lis.py` (lines 86-96): `int`, then `float`,
then `Symbol` (no booleans, strings or complex numbers). -/
def lisAtom (token : String) : Value :=
  match intParse token with
  | some n => .int n
  | Option.none => if floatAccepts token then .floatLit token else .sym token

mutual

/-- The `to_string` function of `lispy.py` (lines 130-147).  Booleans print
as `#t`/`#f`; a `Symbol` prints as itself; a plain `str` takes the branch
`x.encode('unicode_escape').replace('"', r'\"')`, where `encode` yields
`bytes` and `bytes.replace` called with `str` arguments raises `TypeError`
under Python 3; a list is the `to_string` of its elements joined with the
EMPTY separator inside parentheses (the source's `''.join`); an integer
prints via `str(x)`.  The `repr` of a complex value and of
procedure/builtin objects is left abstract — no claim renders one. -/
def to_string : Value → Except PyErr String
  | .bool true => .ok "#t"
  | .bool false => .ok "#f"
  | .sym s => .ok s
  | .str _ => .error (.typeError "a bytes-like object is required, not str")
  | .list xs =>
    match toStringList xs with
    | .ok parts => .ok ("(" ++ String.join parts ++ ")")
    | .error e => .error e
  | .complexLit _ => .error (.notModelled "repr of a Python complex value")
  | .int n => .ok (toString n)
  | .floatLit s => .ok s
  | .none => .ok "None"
  | .closure _ _ _ => .error (.notModelled "repr of a Procedure object")
  | .prim _ => .error (.notModelled "repr of a builtin function")

/-- `map(to_string, x)` with the first raised exception propagated. -/
def toStringList : List Value → Except PyErr (List String)
  | [] => .ok []
  | v :: vs =>
    match to_string v with
    | .error e => .error e
    | .ok s =>
      match toStringList vs with
      | .error e => .error e
      | .ok r => .ok (s :: r)

end

/-- The `expand` function of `lispy.py` (lines 300-304): its docstring says
it walks the tree making fixes and signalling SyntaxError, but its body is
a bare `pass`, so every call returns `None` and `toplevel` is ignored. -/
def expand (_x : Value) (_toplevel : Bool) : Value := .none

/-- The `require` helper of `lispy.py` (lines 306-311): when the predicate
fails it raises `SyntaxError(to_string(x) + ": " + msg)` — an exception
raised while building the message propagates instead. -/
def require (x : Value) (pred : Bool) (msg : String) : Except PyErr Unit :=
  if pred then .ok ()
  else
    match to_string x with
    | .ok s => .error (.syntaxError (s ++ ": " ++ msg))
    | .error e => .error e

/-- One `let` binding is well formed when it is a two-element list headed
by a `Symbol` — the source's
`isinstance(b, list) and len(b) == 2 and isinstance(b[0], Symbol)`. -/
def bindingOk : Value → Bool
  | .list [.sym _, _] => true
  | _ => false

/-- The `let` macro function of `lispy.py` (lines 315-322), faithful to the
source through its `require` checks and the `zip(*bindings)` unpacking; its
final line `[[_lambda, list(vars)] + map(expand, body)] + map(expand, vals)`
concatenates a Python `list` with a `map` object, which raises `TypeError`
under Python 3 (both files begin `#! /usr/bin/env python3`), so a
well-formed `let` never produces the lambda rewrite. -/
def letM (args : List Value) : Except PyErr Value :=
  let x : Value := .list (.sym "let" :: args)
  match require x (decide (args.length > 1)) "wrong length" with
  | .error e => .error e
  | .ok _ =>
    match args with
    | [] => .error (.indexError "unreachable: length > 1 was checked")
    | bindings :: _body =>
      match bindings with
      | .list bs =>
        match require x (bs.all bindingOk) "illegal binding list" with
        | .error e => .error e
        | .ok _ =>
          if bs.isEmpty then .error (.valueError "not enough values to unpack (expected 2, got 0)")
          else .error (.typeError "can only concatenate list (not map) to list")
      | .sym s =>
        if s.isEmpty then .error (.valueError "not enough values to unpack (expected 2, got 0)")
        else
          match require x false "illegal binding list" with
          | .error e => .error e
          | .ok _ => .error (.indexError "unreachable: require false always raises")
      | .str s =>
        if s.isEmpty then .error (.valueError "not enough values to unpack (expected 2, got 0)")
        else
          match require x false "illegal binding list" with
          | .error e => .error e
          | .ok _ => .error (.indexError "unreachable: require false always raises")
      | _ => .error (.typeError "object is not iterable")

/-- The `eof_object` sentinel of `lispy.py` line 47: `Symbol('#<eof-object>')`. -/
def eofText : String := "#<eof-object>"

/-- The `quotes` dict of `lispy.py` line 107. -/
def quoteOf (token : String) : Option String :=
  if token = "'" then some "quote"
  else if token = "`" then some "quasiquote"
  else if token = "," then some "unquote"
  else if token = ",@" then some "unquote-splicing"
  else Option.none

/-- Whether the first character list is a prefix of the second. -/
def prefixChars : List Char → List Char → Bool
  | [], _ => true
  | _ :: _, [] => false
  | a :: as', b :: bs' => a = b && prefixChars as' bs'

/-- Whether the needle occurs contiguously inside the haystack, as Python's
`in` operator on strings (an empty needle is contained in everything). -/
def containsChars (needle : List Char) : List Char → Bool
  | [] => prefixChars needle []
  | c :: rest => prefixChars needle (c :: rest) || containsChars needle rest

/-- Python's `token in eof_object`: substring containment of the token's
text in `#<eof-object>`. -/
def inEofObject (token : String) : Bool :=
  containsChars token.toList eofText.toList

/-- `InPort.next_token` viewed through the token stream it yields: the next
pending token, or the `eof_object` sentinel once the stream is exhausted. -/
def nextToken : List String → String × List String
  | [] => (eofText, [])
  | t :: ts => (t, ts)

mutual

/-- The inner `read_ahead` of `lispy.py` `read` (lines 85-101), on the
token stream produced by `InPort.next_token`.  Branch order follows the
source: `(` starts a list loop, `)` raises, a quote token wraps a recursive
`read`, then the `token in eof_object` containment test raises
`unexpected EOF in list`, and only then is the token handed to `atom`.
The fuel argument only bounds recursion depth (`PyErr.outOfFuel`). -/
def readAhead : Nat → String → List String → Except PyErr (Value × List String)
  | 0, _, _ => .error .outOfFuel
  | fu + 1, token, ts =>
    if token = "(" then readListLoop fu ts []
    else if token = ")" then .error (.syntaxError "unexpected )")
    else
      match quoteOf token with
      | some q =>
        match readE fu ts with
        | .ok (v, ts') => .ok (.list [.sym q, v], ts')
        | .error e => .error e
      | Option.none =>
        if inEofObject token then .error (.syntaxError "unexpected EOF in list")
        else
          match atom token with
          | .ok v => .ok (v, ts)
          | .error e => .error e

/-- The `while True` list loop inside `read_ahead`: pull tokens until `)`;
an exhausted stream feeds the sentinel text back into `readAhead`, where
the containment test raises the EOF syntax error. -/
def readListLoop : Nat → List String → List Value → Except PyErr (Value × List String)
  | 0, _, _ => .error .outOfFuel
  | fu + 1, ts, acc =>
    let (token, ts') := nextToken ts
    if token = ")" then .ok (.list acc.reverse, ts')
    else
      match readAhead fu token ts' with
      | .ok (v, ts'') => readListLoop fu ts'' (v :: acc)
      | .error e => .error e

/-- The body of `read` (lines 102-104): `token1 is eof_object` is an
identity test that only the exhausted stream satisfies, in which case the
`eof_object` symbol itself is returned as a value. -/
def readE : Nat → List String → Except PyErr (Value × List String)
  | 0, _ => .error .outOfFuel
  | _ + 1, [] => .ok (.sym eofText, [])
  | fu + 1, t :: ts => readAhead fu t ts

end

/-- `InPort.tokenizer` of `lispy.py` (line 53) restricted to inputs
containing no string literals and no comments (none of the inputs read by
the theorems below contain `"` or `;`): skip whitespace, then `,@`, then a
single punctuation token from `('`+backquote+`,)`, otherwise the maximal
run of characters outside whitespace and `('"`+backquote+`,;)`. -/
def lispyTokensAux : Nat → List Char → List String
  | 0, _ => []
  | fu + 1, cs =>
    let cs := cs.dropWhile Char.isWhitespace
    match cs with
    | [] => []
    | ',' :: '@' :: r => ",@" :: lispyTokensAux fu r
    | c :: r =>
      if c = '(' || c = ')' || c = '\'' || c = '`' || c = ',' then
        String.mk [c] :: lispyTokensAux fu r
      else
        let run := cs.takeWhile fun ch =>
          !ch.isWhitespace && !(ch ∈ ['(', ')', '\'', '"', '`', ',', ';'])
        if run.isEmpty then [] else String.mk run :: lispyTokensAux fu (cs.drop run.length)

/-- Tokenize a whole line the way repeated `InPort.next_token` calls do. -/
def lispyTokens (s : String) : List String := lispyTokensAux (s.length + 1) s.toList

/-- `parse`/`read` of `lispy.py` on a plain input string. -/
def readString (s : String) : Except PyErr (Value × List String) :=
  readE (s.length + 2) (lispyTokens s)

/-- The `tokenize` function of `lis.py` (lines 79-83): pad parentheses with
spaces and split on whitespace. -/
def lisTokenize (chars : String) : List String :=
  ((((chars.replace "(" " ( ").replace ")" " ) ").split (· = ' '))).filter (· ≠ "")

mutual

/-- The `read_from_tokens` function of `lis.py` (lines 99-115).  An empty
token list at entry raises the `unexpected EOF while reading` SyntaxError;
`(` enters the list loop; a bare `)` raises `unexpected )`. -/
def lisReadFromTokens : Nat → List String → Except PyErr (Value × List String)
  | 0, _ => .error .outOfFuel
  | fu + 1, tokens =>
    match tokens with
    | [] => .error (.syntaxError "unexpected EOF while reading")
    | token :: rest =>
      if token = "(" then lisReadListLoop fu rest []
      else if token = ")" then .error (.syntaxError "unexpected )")
      else .ok (lisAtom token, rest)

/-- The `while tokens[0] != ')'` loop of `read_from_tokens`: indexing
`tokens[0]` on an exhausted list raises IndexError (not SyntaxError). -/
def lisReadListLoop : Nat → List String → List Value → Except PyErr (Value × List String)
  | 0, _, _ => .error .outOfFuel
  | fu + 1, tokens, acc =>
    match tokens with
    | [] => .error (.indexError "list index out of range")
    | t :: rest =>
      if t = ")" then .ok (.list acc.reverse, rest)
      else
        match lisReadFromTokens fu (t :: rest) with
        | .ok (v, ts') => lisReadListLoop fu ts' (v :: acc)
        | .error e => .error e

end

/-- The `parse` function of `lis.py`. -/
def lisParse (program : String) : Except PyErr (Value × List String) :=
  lisReadFromTokens (program.length + 2) (lisTokenize program)

/-- Dict key of a binding target.  Every key actually used by the sources
is a `Symbol` or a plain `str` (whose text is the key, since `Symbol` is a
`str` subclass); a non-string key (possible in Python when a malformed
`lambda` parameter list contains, say, a number) is mapped to a marker text
that variable lookup can never produce, matching the observation that such
bindings are unreachable by symbol lookup.  No claim exercises that corner. -/
def keyStr : Value → String
  | .sym s => s
  | .str s => s
  | .int n => "#<int-key:" ++ toString n ++ ">"
  | _ => "#<unhashable-key>"

/-- `dict.update` over a pair sequence, left to right. -/
def bindPairs (f : Frame) (ps : List (String × Value)) : Frame :=
  ps.foldl (fun acc kv => Frame.insert acc kv.1 kv.2) f

/-- The TypeError raised by `Env.__init__` on an arity mismatch:
`'expected %s, given %s, ' % (to_string(parms), to_string(args))`.
An exception raised while rendering the message propagates instead. -/
def arityError (parms : Value) (args : List Value) : Except PyErr Frame :=
  match to_string parms with
  | .error e => .error e
  | .ok ps =>
    match to_string (.list args) with
    | .error e => .error e
    | .ok asTxt => .error (.typeError ("expected " ++ ps ++ ", given " ++ asTxt ++ ", "))

/-- The dict built by `Env.__init__` of `lispy.py` (lines 181-189).  When
`parms` is a `Symbol`, the dict first binds the symbol to the whole
argument list — and then `self.update(zip(parms, args))`, which stands
OUTSIDE the if/else in the source, zips the characters of the symbol's
spelling with the arguments and adds those bindings too.  When `parms` is a
list, the length check guards the same zip over (parameter, argument)
pairs.  A plain `str` parameter spec is not a `Symbol`, so it takes the
length-checked branch, where both `len` and `zip` act on its characters. -/
def envInit (parms : Value) (args : List Value) : Except PyErr Frame :=
  match parms with
  | .sym spelling =>
    .ok (bindPairs (Frame.insert [] spelling (.list args))
      (List.zip (spelling.toList.map fun c => String.mk [c]) args))
  | .list ps =>
    if args.length ≠ ps.length then arityError parms args
    else .ok (bindPairs [] (List.zip (ps.map keyStr) args))
  | .str spelling =>
    if args.length ≠ spelling.length then arityError parms args
    else .ok (bindPairs [] (List.zip (spelling.toList.map fun c => String.mk [c]) args))
  | _ => .error (.typeError "object has no len()")

/-- `Env.find` of `lispy.py` (lines 191-200): return the innermost frame id
whose dict contains the name; on a frame with `outer is None` raise
`LookupError(var)`.  The fuel argument (instantiated as `e + 1` in
`findVar`) bounds the chain walk; every store built by the evaluator has
`outer` ids strictly below the referring id, so the bound is never hit. -/
def findAux : Nat → Store → Nat → String → Except PyErr Nat
  | 0, _, _, _ => .error .outOfFuel
  | fu + 1, s, e, v =>
    match s.get? e with
    | Option.none => .error (.indexError "invalid environment reference")
    | some fr =>
      if (Frame.get fr.entries v).isSome then .ok e
      else
        match fr.outer with
        | Option.none => .error (.lookupError v)
        | some o => findAux fu s o v

/-- `Env.find` entry point. -/
def findVar (s : Store) (e : Nat) (v : String) : Except PyErr Nat :=
  findAux (e + 1) s e v

/-- Read a binding out of the frame `Env.find` returned (`env.find(x)[x]`). -/
def getVar (s : Store) (fid : Nat) (v : String) : Except PyErr Value :=
  match s.get? fid with
  | some fr =>
    match Frame.get fr.entries v with
    | some val => .ok val
    | Option.none => .error (.lookupError v)
  | Option.none => .error (.indexError "invalid environment reference")

/-- Write a binding into the frame with the given id (dict item assignment
through the reference `Env.find` / the current env returned). -/
def setVar (s : Store) (fid : Nat) (v : String) (val : Value) : Store :=
  match s.get? fid with
  | some fr => List.set s fid ⟨Frame.insert fr.entries v val, fr.outer⟩
  | Option.none => s

/-- `Env.find` of `lis.py` (lines 58-62):
`return self if (var in self) else self.outer.find(var)`.  When the name is
nowhere bound, the global frame's `outer` is `None`, and `None.find(var)`
raises `AttributeError` — the line the source itself annotates with
`# There is a potential bug`.  Same store representation (and fuel bound,
instantiated as `e + 1`) as the `lispy.py` `findAux` above. -/
def lisFindAux : Nat → Store → Nat → String → Except PyErr Nat
  | 0, _, _, _ => .error .outOfFuel
  | fu + 1, s, e, v =>
    match s.get? e with
    | Option.none => .error (.indexError "invalid environment reference")
    | some fr =>
      if (Frame.get fr.entries v).isSome then .ok e
      else
        match fr.outer with
        | Option.none => .error (.attributeError "NoneType object has no attribute find")
        | some o => lisFindAux fu s o v

/-- `Env.find` entry point of `lis.py`. -/
def lisFind (s : Store) (e : Nat) (v : String) : Except PyErr Nat :=
  lisFindAux (e + 1) s e v

/-- Numeric view for primitives: Python `bool` is an `int` subclass. -/
def numView : Value → Option Int
  | .int n => some n
  | .bool b => some (if b then 1 else 0)
  | _ => Option.none

/-- Text view shared by `str` and its subclass `Symbol`. -/
def strView : Value → Option String
  | .str s => some s
  | .sym s => some s
  | _ => Option.none

/-- `op.add`, also installed as `append`: integer addition, list and string
concatenation.  Float/complex arithmetic is left abstract. -/
def primAdd : Value → Value → Except PyErr Value
  | a, b =>
    match numView a, numView b with
    | some x, some y => .ok (.int (x + y))
    | _, _ =>
      match a, b with
      | .list xs, .list ys => .ok (.list (xs ++ ys))
      | .floatLit _, _ => .error (.notModelled "float arithmetic")
      | _, .floatLit _ => .error (.notModelled "float arithmetic")
      | .complexLit _, _ => .error (.notModelled "complex arithmetic")
      | _, .complexLit _ => .error (.notModelled "complex arithmetic")
      | x, y =>
        match strView x, strView y with
        | some u, some v => .ok (.str (u ++ v))
        | _, _ => .error (.typeError "unsupported operand types for +")

/-- Application of a `standard_env` primitive to already-evaluated
arguments (`proc(*exps)` in `eval`).  Cases the claims do not reach —
float/complex arithmetic, true division, the lazy `map` object, object
identity of aliased lists — answer `notModelled` rather than guessing. -/
def primApply (p : Prim) (args : List Value) : Except PyErr Value :=
  match p, args with
  | .add, [a, b] => primAdd a b
  | .append, [a, b] => primAdd a b
  | .sub, [a, b] =>
    match numView a, numView b with
    | some x, some y => .ok (.int (x - y))
    | _, _ => .error (.notModelled "non-integer subtraction")
  | .mul, [a, b] =>
    match numView a, numView b with
    | some x, some y => .ok (.int (x * y))
    | _, _ => .error (.notModelled "non-integer multiplication")
  | .div, [_, _] => .error (.notModelled "true division yields a float")
  | .gt, [a, b] =>
    match numView a, numView b with
    | some x, some y => .ok (.bool (x > y))
    | _, _ => .error (.notModelled "non-integer comparison")
  | .lt, [a, b] =>
    match numView a, numView b with
    | some x, some y => .ok (.bool (x < y))
    | _, _ => .error (.notModelled "non-integer comparison")
  | .ge, [a, b] =>
    match numView a, numView b with
    | some x, some y => .ok (.bool (x ≥ y))
    | _, _ => .error (.notModelled "non-integer comparison")
  | .le, [a, b] =>
    match numView a, numView b with
    | some x, some y => .ok (.bool (x ≤ y))
    | _, _ => .error (.notModelled "non-integer comparison")
  | .eq, [a, b] => .ok (.bool (pyEq a b))
  | .equalP, [a, b] => .ok (.bool (pyEq a b))
  | .isIdentical, [a, b] =>
    match a, b with
    | .sym x, .sym y => .ok (.bool (x = y))
    | .bool x, .bool y => .ok (.bool (x = y))
    | .none, .none => .ok (.bool true)
    | .int x, .int y =>
      if x = y ∧ -5 ≤ x ∧ x ≤ 256 then .ok (.bool true)
      else if x ≠ y then .ok (.bool false)
      else .error (.notModelled "identity of equal large integers")
    | _, _ => .error (.notModelled "object identity")
  | .abs, [a] =>
    match numView a with
    | some x => .ok (.int |x|)
    | _ => .error (.notModelled "non-integer abs")
  | .roundP, [a] =>
    match numView a with
    | some x => .ok (.int x)
    | _ => .error (.notModelled "non-integer round")
  | .notP, [a] => .ok (.bool (!truthy a))
  | .isNull, [a] => .ok (.bool (pyEq a (.list [])))
  | .isNumber, [a] =>
    match a with
    | .int _ => .ok (.bool true)
    | .bool _ => .ok (.bool true)
    | .floatLit _ => .ok (.bool true)
    | _ => .ok (.bool false)
  | .isProcedure, [a] =>
    match a with
    | .closure _ _ _ => .ok (.bool true)
    | .prim _ => .ok (.bool true)
    | _ => .ok (.bool false)
  | .isSymbol, [a] =>
    match a with
    | .sym _ => .ok (.bool true)
    | _ => .ok (.bool false)
  | .isList, [a] =>
    match a with
    | .list _ => .ok (.bool true)
    | _ => .ok (.bool false)
  | .car, [a] =>
    match a with
    | .list (x :: _) => .ok x
    | .list [] => .error (.indexError "list index out of range")
    | .str t => if t.isEmpty then .error (.indexError "string index out of range")
                else .ok (.str (String.mk [t.toList.head!]))
    | .sym t => if t.isEmpty then .error (.indexError "string index out of range")
                else .ok (.str (String.mk [t.toList.head!]))
    | _ => .error (.typeError "object is not subscriptable")
  | .cdr, [a] =>
    match a with
    | .list xs => .ok (.list xs.tail)
    | .str t => .ok (.str (String.mk t.toList.tail))
    | .sym t => .ok (.str (String.mk t.toList.tail))
    | _ => .error (.typeError "object is not subscriptable")
  | .consP, [a, b] =>
    match b with
    | .list ys => .ok (.list (a :: ys))
    | _ => .error (.typeError "can only concatenate list to list")
  | .len, [a] =>
    match a with
    | .list xs => .ok (.int xs.length)
    | .str t => .ok (.int t.length)
    | .sym t => .ok (.int t.length)
    | _ => .error (.typeError "object has no len()")
  | .listP, xs => .ok (.list xs)
  | .beginP, xs =>
    match xs.getLast? with
    | some v => .ok v
    | Option.none => .error (.indexError "tuple index out of range")
  | .mapP, _ => .error (.notModelled "map returns a lazy map object")
  | .maxP, [.list (x :: xs)] =>
    match numView x, (x :: xs).mapM numView with
    | _, some ns => .ok (.int (ns.foldl max (ns.head!)))
    | _, Option.none => .error (.notModelled "heterogeneous max")
  | .maxP, [.list []] => .error (.valueError "max() arg is an empty sequence")
  | .minP, [.list (x :: xs)] =>
    match numView x, (x :: xs).mapM numView with
    | _, some ns => .ok (.int (ns.foldl min (ns.head!)))
    | _, Option.none => .error (.notModelled "heterogeneous min")
  | .minP, [.list []] => .error (.valueError "min() arg is an empty sequence")
  | .maxP, xs =>
    match xs.mapM numView with
    | some (n :: ns) => .ok (.int (ns.foldl max n))
    | _ => .error (.notModelled "max on these arguments")
  | .minP, xs =>
    match xs.mapM numView with
    | some (n :: ns) => .ok (.int (ns.foldl min n))
    | _ => .error (.notModelled "min on these arguments")
  | _, _ => .error (.typeError "wrong number of arguments")

/-- Identity test against an interned special-form symbol (`x[0] is _if`
etc.; interning makes object identity coincide with name equality, and a
plain string is a different object from any `Symbol`). -/
def Value.isSym : Value → String → Bool
  | .sym t, s => t = s
  | _, _ => false

mutual

/-- The `eval` function of `lispy.py` (lines 247-284).

The `while True` trampoline is the recursion at SAME `stk` in the tail
positions — the selected branch of `if`, the last expression of `begin`,
and the body of an applied `Procedure` (where a fresh frame is appended to
the store) — while every genuinely recursive `eval` call in the source
(the test of `if`, the right-hand sides of `set!` and `define`, the
non-final expressions of `begin`, and each element of a call form) runs at
`stk - 1` after a RecursionError check, mirroring Python's bounded call
stack.  `fuel` decreases on every recursive occurrence purely to ground the
definition; `outOfFuel` is never a Python outcome.  Branch order and the
destructuring arities follow the source; a non-`Procedure`, non-builtin
head raises TypeError as `proc(*exps)` would. -/
def evalF : Nat → Nat → Value → Nat → Store → Except PyErr (Value × Store)
  | 0, _, _, _, _ => .error .outOfFuel
  | fuel + 1, stk, x, e, s =>
    match x with
    | .sym v =>
      match findVar s e v with
      | .error err => .error err
      | .ok fid =>
        match getVar s fid v with
        | .ok val => .ok (val, s)
        | .error err => .error err
    | .list [] => .error (.indexError "list index out of range")
    | .list (h :: t) =>
      if h.isSym "quote" then
        match t with
        | [exp] => .ok (exp, s)
        | _ => .error (.valueError "unpacking mismatch in (_, exp) = x")
      else if h.isSym "if" then
        match t with
        | [test, conseq, alt] =>
          if stk = 0 then .error .recursionError
          else
            match evalF fuel (stk - 1) test e s with
            | .error err => .error err
            | .ok (tv, s1) => evalF fuel stk (if truthy tv then conseq else alt) e s1
        | _ => .error (.valueError "unpacking mismatch in (_, test, conseq, alt) = x")
      else if h.isSym "set!" then
        match t with
        | [var, exp] =>
          if stk = 0 then .error .recursionError
          else
            match evalF fuel (stk - 1) exp e s with
            | .error err => .error err
            | .ok (val, s1) =>
              match findVar s1 e (keyStr var) with
              | .error err => .error err
              | .ok fid => .ok (.none, setVar s1 fid (keyStr var) val)
        | _ => .error (.valueError "unpacking mismatch in (_, var, exp) = x")
      else if h.isSym "define" then
        match t with
        | [var, exp] =>
          if stk = 0 then .error .recursionError
          else
            match evalF fuel (stk - 1) exp e s with
            | .error err => .error err
            | .ok (val, s1) => .ok (.none, setVar s1 e (keyStr var) val)
        | _ => .error (.valueError "unpacking mismatch in (_, var, exp) = x")
      else if h.isSym "lambda" then
        match t with
        | [parms, exp] => .ok (.closure parms exp e, s)
        | _ => .error (.valueError "unpacking mismatch in (_, parms, exp) = x")
      else if h.isSym "begin" then
        match t with
        | [] => evalF fuel stk h e s
        | t1 :: trest =>
          match seqEval fuel stk ((t1 :: trest).dropLast) e s with
          | .error err => .error err
          | .ok s1 => evalF fuel stk ((t1 :: trest).getLast (by simp)) e s1
      else
        match evalArgs fuel stk (h :: t) e s with
        | .error err => .error err
        | .ok (vs, s1) =>
          match vs with
          | [] => .error (.indexError "pop from empty list")
          | proc :: argv =>
            match proc with
            | .closure parms body envId =>
              match envInit parms argv with
              | .error err => .error err
              | .ok fr => evalF fuel stk body s1.length (s1 ++ [⟨fr, some envId⟩])
            | .prim p =>
              match primApply p argv with
              | .ok v => .ok (v, s1)
              | .error err => .error err
            | _ => .error (.typeError "object is not callable")
    | lit => .ok (lit, s)
termination_by structural fuel _ _ _ _ => fuel

/-- The list comprehension `[eval(exp, env) for exp in x]` of the call
branch: each element is one recursive `eval` call (one stack level deeper),
threading dict mutations left to right; one unit of fuel is consumed per
element purely to keep the recursion structural. -/
def evalArgs (fuel stk : Nat) (xs : List Value) (e : Nat) (s : Store) :
    Except PyErr (List Value × Store) :=
  match xs with
  | [] => .ok ([], s)
  | x :: rest =>
    match fuel with
    | 0 => .error .outOfFuel
    | fuel + 1 =>
      if stk = 0 then .error .recursionError
      else
        match evalF fuel (stk - 1) x e s with
        | .error err => .error err
        | .ok (v, s1) =>
          match evalArgs fuel stk rest e s1 with
          | .error err => .error err
          | .ok (vs, s2) => .ok (v :: vs, s2)
termination_by structural fuel

/-- The `for exp in x[1:-1]: eval(exp, env)` loop of the `begin` branch:
evaluate for effect, discard values. -/
def seqEval (fuel stk : Nat) (xs : List Value) (e : Nat) (s : Store) :
    Except PyErr Store :=
  match xs with
  | [] => .ok s
  | x :: rest =>
    match fuel with
    | 0 => .error .outOfFuel
    | fuel + 1 =>
      if stk = 0 then .error .recursionError
      else
        match evalF fuel (stk - 1) x e s with
        | .error err => .error err
        | .ok (_, s1) => seqEval fuel stk rest e s1
termination_by structural fuel

end

/-- The global store at interpreter start: `global_env = standard_env()`
is the single `Env` with no outer frame, at id 0. -/
def store0 : Store := [⟨stdEntries, Option.none⟩]

/-- Test of the countdown loop: `(= n 0)`. -/
def testX : Value := .list [.sym "=", .sym "n", .int 0]

/-- Tail call of the countdown loop: `(loop (- n 1))`. -/
def altX : Value := .list [.sym "loop", .list [.sym "-", .sym "n", .int 1]]

/-- `(if (= n 0) 0 (loop (- n 1)))`. -/
def ifX : Value := .list [.sym "if", testX, .int 0, altX]

/-- The closure body `(begin (if (= n 0) 0 (loop (- n 1))))`: its `if`
sits in `begin`-tail position, exercising all three tail positions of the
claim (begin tail, if branch, applied closure body). -/
def bodyX : Value := .list [.sym "begin", ifX]

/-- `(lambda (n) (begin (if (= n 0) 0 (loop (- n 1)))))`. -/
def lamX : Value := .list [.sym "lambda", .list [.sym "n"], bodyX]

/-- `(define loop (lambda (n) ...))`. -/
def defX : Value := .list [.sym "define", .sym "loop", lamX]

/-- The call `(loop n)` for a given starting count. -/
def callX (n : Nat) : Value := .list [.sym "loop", .int n]

/-- The closure value the `define` produces: it captures the global frame
(id 0) by reference, which is how the later `loop` binding becomes visible
to the recursive call. -/
def loopClos : Value := .closure (.list [.sym "n"]) bodyX 0

/-- The global frame after `(define loop ...)`. -/
def G1 : Frame := ("loop", loopClos) :: stdEntries

/-- The store after the `define`. -/
def store1 : Store := [⟨G1, Option.none⟩]

/-- The continuation-escape test expression of the spec:
`(+ 1 (call/cc (lambda (k) (k 10) 999)))`. -/
def ccExpr : Value :=
  .list [.sym "+", .int 1,
    .list [.sym "call/cc",
      .list [.sym "lambda", .list [.sym "k"],
        .list [.sym "k", .int 10], .int 999]]]

/-- The `define-macro` bootstrap form evaluated at module load
(`lispy.py` lines 328-337), with the body of the `and` macro abbreviated to
the exact list structure `parse` produces for it. -/
def bootstrapX : Value :=
  .list [.sym "begin",
    .list [.sym "define-macro", .sym "and",
      .list [.sym "lambda", .sym "args",
        .list [.sym "if", .list [.sym "null?", .sym "args"], .bool true,
          .list [.sym "if",
            .list [.sym "=", .list [.sym "length", .sym "args"], .int 1],
            .list [.sym "car", .sym "args"],
            .list [.sym "quasiquote",
              .list [.sym "if", .list [.sym "unquote", .list [.sym "car", .sym "args"]],
                .list [.sym "and", .list [.sym "unquote-splicing", .list [.sym "cdr", .sym "args"]]],
                .bool false]]]]]]]

/-- The subtraction sub-expression `(- n 1)` of the countdown loop. -/
def minusX : Value := .list [.sym "-", .sym "n", .int 1]

/-- The dict built by `Env.__init__` of `lis.py` (lines 54-56): just
`self.update(zip(parms, args))` — no arity check and no variadic branch, so
`zip` silently truncates, and a `Symbol` parameter spec zips its characters. -/
def lisEnvInit (parms : Value) (args : List Value) : Except PyErr Frame :=
  match parms with
  | .sym spelling =>
    .ok (bindPairs [] (List.zip (spelling.data.map fun c => String.mk [c]) args))
  | .str spelling =>
    .ok (bindPairs [] (List.zip (spelling.data.map fun c => String.mk [c]) args))
  | .list ps => .ok (bindPairs [] (List.zip (ps.map keyStr) args))
  | _ => .error (.typeError "zip argument is not iterable")

mutual

/-- The `eval` function of `lis.py` (lines 125-152).  Unlike `lispy.py`
there is NO trampoline: the selected branch of `if` is evaluated by
`return eval(exp, env)` and an applied `Procedure` body by the `eval` call
inside `Procedure.__call__` — every one of them a genuinely recursive call,
modelled at `stk - 1` with a RecursionError guard, so the stack budget this
evaluator needs grows with the recursion depth of the program.  There is no
`begin` special form and no `define-macro`; branch dispatch is by string
equality (`x[0] == 'quote'` …), which interning makes equivalent to the
symbol test. -/
def lisEvalD : Nat → Nat → Value → Nat → Store → Except PyErr (Value × Store)
  | 0, _, _, _, _ => .error .outOfFuel
  | fuel + 1, stk, x, e, s =>
    match x with
    | .sym v =>
      match lisFind s e v with
      | .error err => .error err
      | .ok fid =>
        match getVar s fid v with
        | .ok val => .ok (val, s)
        | .error err => .error err
    | .list [] => .error (.indexError "list index out of range")
    | .list (h :: t) =>
      if h.isSym "quote" then
        match t with
        | [exp] => .ok (exp, s)
        | _ => .error (.valueError "unpacking mismatch in (_, exp) = x")
      else if h.isSym "if" then
        match t with
        | [test, conseq, alt] =>
          if stk = 0 then .error .recursionError
          else
            match lisEvalD fuel (stk - 1) test e s with
            | .error err => .error err
            | .ok (tv, s1) =>
              lisEvalD fuel (stk - 1) (if truthy tv then conseq else alt) e s1
        | _ => .error (.valueError "unpacking mismatch in (_, test, conseq, alt) = x")
      else if h.isSym "define" then
        match t with
        | [var, exp] =>
          if stk = 0 then .error .recursionError
          else
            match lisEvalD fuel (stk - 1) exp e s with
            | .error err => .error err
            | .ok (val, s1) => .ok (.none, setVar s1 e (keyStr var) val)
        | _ => .error (.valueError "unpacking mismatch in (_, var, exp) = x")
      else if h.isSym "set!" then
        match t with
        | [var, exp] =>
          if stk = 0 then .error .recursionError
          else
            match lisEvalD fuel (stk - 1) exp e s with
            | .error err => .error err
            | .ok (val, s1) =>
              match lisFind s1 e (keyStr var) with
              | .error err => .error err
              | .ok fid => .ok (.none, setVar s1 fid (keyStr var) val)
        | _ => .error (.valueError "unpacking mismatch in (_, var, exp) = x")
      else if h.isSym "lambda" then
        match t with
        | [parms, body] => .ok (.closure parms body e, s)
        | _ => .error (.valueError "unpacking mismatch in (_, parms, body) = x")
      else
        if stk = 0 then .error .recursionError
        else
          match lisEvalD fuel (stk - 1) h e s with
          | .error err => .error err
          | .ok (proc, s1) =>
            match lisEvalArgs fuel stk t e s1 with
            | .error err => .error err
            | .ok (argv, s2) =>
              match proc with
              | .closure parms body envId =>
                (match lisEnvInit parms argv with
                 | .error err => .error err
                 | .ok fr =>
                   if stk = 0 then .error .recursionError
                   else lisEvalD fuel (stk - 1) body s2.length (s2 ++ [⟨fr, some envId⟩]))
              | .prim p =>
                (match primApply p argv with
                 | .ok v => .ok (v, s2)
                 | .error err => .error err)
              | _ => .error (.typeError "object is not callable")
    | lit => .ok (lit, s)
termination_by structural fuel _ _ _ _ => fuel

/-- The `[eval(arg, env) for arg in x[1:]]` comprehension of the call
branch of `lis.py` eval. -/
def lisEvalArgs (fuel stk : Nat) (xs : List Value) (e : Nat) (s : Store) :
    Except PyErr (List Value × Store) :=
  match xs with
  | [] => .ok ([], s)
  | x :: rest =>
    match fuel with
    | 0 => .error .outOfFuel
    | fuel + 1 =>
      if stk = 0 then .error .recursionError
      else
        match lisEvalD fuel (stk - 1) x e s with
        | .error err => .error err
        | .ok (v, s1) =>
          match lisEvalArgs fuel stk rest e s1 with
          | .error err => .error err
          | .ok (vs, s2) => .ok (v :: vs, s2)
termination_by structural fuel

end

/-- `(lambda (n) (if (= n 0) 0 (loop (- n 1))))` for `lis.py` (which has
no `begin`, so the body is the bare `if`). -/
def lamL : Value := .list [.sym "lambda", .list [.sym "n"], ifX]

/-- `(define loop (lambda (n) (if (= n 0) 0 (loop (- n 1)))))` for `lis.py`. -/
def defL : Value := .list [.sym "define", .sym "loop", lamL]

/-- The `lis.py` global store after the `define`. -/
def lisStore1 : Store := [⟨("loop", .closure (.list [.sym "n"]) ifX 0) :: stdEntries, Option.none⟩]

theorem evalF_sym (f stk e : Nat) (s : Store) (v : String) :
    evalF (f + 1) stk (.sym v) e s
      = (match findVar s e v with
         | .error err => .error err
         | .ok fid =>
           match getVar s fid v with
           | .ok val => .ok (val, s)
           | .error err => .error err) := rfl

theorem evalF_int (f stk e : Nat) (s : Store) (n : Int) :
    evalF (f + 1) stk (.int n) e s = .ok (.int n, s) := rfl

theorem evalF_if (f stk e : Nat) (s : Store) (test conseq alt : Value) :
    evalF (f + 1) stk (.list [.sym "if", test, conseq, alt]) e s
      = (if stk = 0 then .error .recursionError
         else
           match evalF f (stk - 1) test e s with
           | .error err => .error err
           | .ok (tv, s1) => evalF f stk (if truthy tv then conseq else alt) e s1) := rfl

theorem evalF_begin_one (f stk e : Nat) (s : Store) (x1 : Value) :
    evalF (f + 2) stk (.list [.sym "begin", x1]) e s = evalF (f + 1) stk x1 e s := rfl

theorem evalF_call_loop (f stk e : Nat) (s : Store) (t : List Value) :
    evalF (f + 1) stk (.list (.sym "loop" :: t)) e s
      = (match evalArgs f stk (.sym "loop" :: t) e s with
         | .error err => .error err
         | .ok (vs, s1) =>
           match vs with
           | [] => .error (.indexError "pop from empty list")
           | proc :: argv =>
             match proc with
             | .closure parms body envId =>
               (match envInit parms argv with
                | .error err => .error err
                | .ok fr => evalF f stk body s1.length (s1 ++ [⟨fr, some envId⟩]))
             | .prim p =>
               (match primApply p argv with
                | .ok v => .ok (v, s1)
                | .error err => .error err)
             | _ => .error (.typeError "object is not callable")) := rfl

theorem evalArgs_cons (f stk e : Nat) (s : Store) (x : Value) (xs : List Value) :
    evalArgs (f + 1) stk (x :: xs) e s
      = (if stk = 0 then .error .recursionError
         else
           match evalF f (stk - 1) x e s with
           | .error err => .error err
           | .ok (v, s1) =>
             match evalArgs f stk xs e s1 with
             | .error err => .error err
             | .ok (vs, s2) => .ok (v :: vs, s2)) := rfl

theorem evalArgs_nil (f stk e : Nat) (s : Store) :
    evalArgs f stk [] e s = .ok ([], s) := by
  cases f <;> rfl

theorem evalTestL (f : Nat) (e' : Nat) (s : Store) (k : Int)
    (h_e : s[e' + 1]? = some ⟨[("n", .int k)], some 0⟩)
    (h_g : s[0]? = some ⟨G1, Option.none⟩) :
    evalF (f + 5) 2 testX (e' + 1) s = .ok (.bool (decide (k = 0)), s) := by
  simp [evalF, evalArgs, testX, findVar, findAux, getVar, h_e, h_g, Frame.get,
        G1, stdEntries, Value.isSym, primApply, pyEq, numView]

theorem evalMinusL (f : Nat) (e' : Nat) (s : Store) (k : Int)
    (h_e : s[e' + 1]? = some ⟨[("n", .int k)], some 0⟩)
    (h_g : s[0]? = some ⟨G1, Option.none⟩) :
    evalF (f + 5) 2 minusX (e' + 1) s = .ok (.int (k - 1), s) := by
  simp [evalF, evalArgs, minusX, findVar, findAux, getVar, h_e, h_g, Frame.get,
        G1, stdEntries, Value.isSym, primApply, pyEq, numView]

set_option maxHeartbeats 800000 in
theorem loopAux : ∀ (k : Nat) (e : Nat) (s : Store), e ≠ 0 →
    s[e]? = some ⟨[("n", .int k)], some 0⟩ →
    s[0]? = some ⟨G1, Option.none⟩ →
    ∃ s', evalF (3 * k + 7) 3 bodyX e s = .ok (.int 0, s') := by
  intro k
  induction k with
  | zero =>
    intro e s he h_e h_g
    obtain ⟨e', rfl⟩ : ∃ e', e = e' + 1 := ⟨e - 1, by omega⟩
    have htest5 : evalF 5 2 testX (e' + 1) s = .ok (.bool true, s) := by
      have h := evalTestL 0 e' s 0 h_e h_g
      simpa using h
    refine ⟨s, ?_⟩
    show evalF (5 + 2) 3 (.list [.sym "begin", ifX]) (e' + 1) s = _
    rw [evalF_begin_one 5]
    show evalF (5 + 1) 3 (.list [.sym "if", testX, .int 0, altX]) (e' + 1) s = _
    rw [evalF_if 5]
    simp [htest5, truthy]
    exact evalF_int 4 3 (e' + 1) s 0
  | succ k ih =>
    intro e s he h_e h_g
    obtain ⟨e', rfl⟩ : ∃ e', e = e' + 1 := ⟨e - 1, by omega⟩
    have hlen : 0 < s.length := by
      rcases s with _ | ⟨a, t⟩
      · simp at h_g
      · simp
    have h1 : (s ++ [(⟨[("n", .int k)], some 0⟩ : EnvObj)])[s.length]?
        = some ⟨[("n", .int k)], some 0⟩ := List.getElem?_concat_length s _
    have h2 : (s ++ [(⟨[("n", .int k)], some 0⟩ : EnvObj)])[0]?
        = some ⟨G1, Option.none⟩ := by
      rcases s with _ | ⟨a, t⟩
      · simp at h_g
      · simpa using h_g
    obtain ⟨s', hs'⟩ := ih s.length (s ++ [⟨[("n", .int k)], some 0⟩])
      (by omega) h1 h2
    have hcast : ¬ ((((k : Nat) + 1 : Nat)) : Int) = 0 := by
      push_cast; omega
    have htest8 : evalF (3 * k + 8) 2 testX (e' + 1) s = .ok (.bool false, s) := by
      have h := evalTestL (3 * k + 3) e' s (((k : Nat) + 1 : Nat) : Int) h_e h_g
      rw [decide_eq_false hcast] at h
      exact h
    have hloop6 : evalF (3 * k + 6) 2 (.sym "loop") (e' + 1) s = .ok (loopClos, s) := by
      rw [evalF_sym (3 * k + 5)]
      simp [findVar, findAux, getVar, h_e, h_g, Frame.get, G1, stdEntries]
    have hminus5 : evalF (3 * k + 5) 2 minusX (e' + 1) s = .ok (.int k, s) := by
      have h := evalMinusL (3 * k) e' s (((k : Nat) + 1 : Nat) : Int) h_e h_g
      have hsub : ((((k : Nat) + 1 : Nat)) : Int) - 1 = (k : Int) := by push_cast; ring
      rw [hsub] at h
      exact h
    refine ⟨s', ?_⟩
    show evalF ((3 * k + 8) + 2) 3 (.list [.sym "begin", ifX]) (e' + 1) s = _
    rw [evalF_begin_one (3 * k + 8)]
    show evalF ((3 * k + 8) + 1) 3 (.list [.sym "if", testX, .int 0, altX]) (e' + 1) s = _
    rw [evalF_if (3 * k + 8)]
    simp [htest8, truthy]
    show evalF ((3 * k + 7) + 1) 3 (.list (.sym "loop" :: [minusX])) (e' + 1) s = _
    rw [evalF_call_loop (3 * k + 7)]
    rw [evalArgs_cons (3 * k + 6)]
    simp [hloop6]
    rw [evalArgs_cons (3 * k + 5)]
    simp [hminus5]
    rw [evalArgs_nil (3 * k + 5)]
    simp [loopClos, envInit, bindPairs, Frame.insert, keyStr]
    exact hs'

theorem evalDefine : evalF 12 3 defX 0 store0 = .ok (.none, store1) := by
  with_unfolding_all rfl

theorem loopCall (n : Nat) :
    ∃ s', evalF (3 * n + 8) 3 (callX n) 0 store1 = .ok (.int 0, s') := by
  obtain ⟨s', hs'⟩ := loopAux n 1 (store1 ++ [⟨[("n", .int n)], some 0⟩])
    (by omega) (by rfl) (by rfl)
  refine ⟨s', ?_⟩
  show evalF ((3 * n + 7) + 1) 3 (.list (.sym "loop" :: [.int n])) 0 store1 = _
  rw [evalF_call_loop (3 * n + 7)]
  rw [evalArgs_cons (3 * n + 6)]
  have hl : evalF (3 * n + 6) 2 (.sym "loop") 0 store1 = .ok (loopClos, store1) := by
    rw [evalF_sym (3 * n + 5)]
    rfl
  simp only [hl]
  rw [evalArgs_cons (3 * n + 5)]
  have hint : evalF (3 * n + 5) 2 (.int n) 0 store1 = .ok (.int n, store1) :=
    evalF_int (3 * n + 4) 2 0 store1 n
  simp only [hint]
  rw [evalArgs_nil (3 * n + 5)]
  simp [loopClos, envInit, bindPairs, Frame.insert, keyStr]
  exact hs'

/-- C1: tail-call boundedness.  Evaluating
`(define loop (lambda (n) (begin (if (= n 0) 0 (loop (- n 1))))))` and then
`(loop n)` succeeds for EVERY starting count `n` — including 100000 — with
the recursion-depth budget fixed at the constant 3, independent of `n`:
the `begin` tail, the selected `if` branch and the applied closure body all
continue the `while True` loop of `eval` at the same depth, only the fuel
(loop iterations) growing with `n`. -/
theorem spec_tail_call_bounded_stack :
    evalF 12 3 defX 0 store0 = .ok (.none, store1)
    ∧ (∀ n : Nat, ∃ s', evalF (3 * n + 8) 3 (callX n) 0 store1 = .ok (.int 0, s'))
    ∧ (∃ s', evalF (3 * 100000 + 8) 3 (callX 100000) 0 store1 = .ok (.int 0, s')) :=
  ⟨evalDefine, loopCall, loopCall 100000⟩

/-- C2: the continuation-escape expression
`(+ 1 (call/cc (lambda (k) (k 10) 999)))` does not evaluate to 11:
`standard_env` never binds `call/cc` (the `callcc` function at lines
340-354 is defined but never installed), so evaluation raises
`LookupError: call/cc` while evaluating the head of the inner call. -/
theorem spec_callcc_escape :
    evalF 60 10 ccExpr 0 store0 = .error (.lookupError "call/cc") := by
  with_unfolding_all rfl

/-- C3: `expand` does not return non-list forms and literals unchanged —
its body is a bare `pass`, so it returns `None` (Python's null) for every
input, in particular `expand(42)` is `None`, not `42`. -/
theorem spec_expand_identity_on_atoms :
    (∀ (x : Value) (t : Bool), expand x t = Value.none)
    ∧ expand (.int 42) false ≠ .int 42 :=
  ⟨fun _ _ => rfl, fun h => Value.noConfusion h⟩

/-- C4: the derived form `and` does not work: `eval` has no `define-macro`
branch, so the bootstrap `(begin (define-macro and (lambda args ...)))`
evaluated at module load treats `define-macro` as a call head and raises
`LookupError: define-macro`; and evaluating `(and)` raises
`LookupError: and` because nothing ever installs an `and` macro or binding. -/
theorem spec_and_macro :
    evalF 50 10 (.list [.sym "and"]) 0 store0 = .error (.lookupError "and")
    ∧ evalF 50 10 bootstrapX 0 store0 = .error (.lookupError "define-macro") :=
  ⟨by with_unfolding_all rfl, by with_unfolding_all rfl⟩

/-- C5: the `let` rewrite never happens.  Calling the `let` macro function
on the well-formed binding list of `(let ((a 1) (b 2)) (+ a b))` raises
`TypeError` at `[[_lambda, list(vars)] + map(expand, body)]` (list plus map
object under Python 3); an ill-formed binding entry does raise the
`illegal binding list` SyntaxError as the spec says; and evaluating the
`let` form itself raises `LookupError: let`, because `expand` is a stub and
`eval` never consults `macro_table`. -/
theorem spec_let_expansion :
    letM [.list [.list [.sym "a", .int 1], .list [.sym "b", .int 2]],
          .list [.sym "+", .sym "a", .sym "b"]]
      = .error (.typeError "can only concatenate list (not map) to list")
    ∧ letM [.list [.list [.sym "a", .int 1, .int 2]],
            .list [.sym "+", .sym "a", .sym "b"]]
      = .error (.syntaxError "(let((a12))(+ab)): illegal binding list")
    ∧ evalF 50 10 (.list [.sym "let",
        .list [.list [.sym "a", .int 1], .list [.sym "b", .int 2]],
        .list [.sym "+", .sym "a", .sym "b"]]) 0 store0
      = .error (.lookupError "let") :=
  ⟨by with_unfolding_all rfl, by with_unfolding_all rfl, by with_unfolding_all rfl⟩

/-- C6: an unbound name makes `lispy.py` raise the designated
`LookupError`, but `lis.py` instead crashes with `AttributeError`
(`None.find`) when the chain is exhausted — the failure mode its own
source comments `# There is a potential bug`. -/
theorem spec_unbound_variable_error :
    lisFind store0 0 "foo"
      = .error (.attributeError "NoneType object has no attribute find")
    ∧ findVar store0 0 "foo" = .error (.lookupError "foo")
    ∧ evalF 50 10 (.list [.sym "foo"]) 0 store0 = .error (.lookupError "foo") :=
  ⟨by with_unfolding_all rfl, by with_unfolding_all rfl, by with_unfolding_all rfl⟩

/-- C7: the two malformed cases do raise SyntaxError in `lispy.py`
(`)` with no open list; end of input inside a list), and a well-formed
two-element list reads back correctly — but the well-formed input `(e)`
ALSO raises the EOF SyntaxError (the substring bug of C9), and `lis.py`
raises IndexError, not SyntaxError, on end of input inside a list. -/
theorem spec_read_syntax_error :
    readE 10 [")"] = .error (.syntaxError "unexpected )")
    ∧ readE 10 ["(", "1"] = .error (.syntaxError "unexpected EOF in list")
    ∧ readE 10 ["(", "1", "2", ")"] = .ok (.list [.int 1, .int 2], [])
    ∧ readString "(e)" = .error (.syntaxError "unexpected EOF in list")
    ∧ lisParse "(1 2" = .error (.indexError "list index out of range") :=
  ⟨by with_unfolding_all rfl, by with_unfolding_all rfl, by with_unfolding_all rfl,
   by with_unfolding_all rfl, by with_unfolding_all rfl⟩

/-- C8: the literal-atom round trip holds for booleans and integers but
fails for strings in both directions under Python 3: `to_string` of a
string raises `TypeError` (`bytes.replace` with `str` arguments), and
`atom` on a string token raises `AttributeError` (`str` has no `decode`). -/
theorem spec_atom_roundtrip :
    to_string (.str "hi") = .error (.typeError "a bytes-like object is required, not str")
    ∧ atom "\"hi\"" = .error (.attributeError "str object has no attribute decode")
    ∧ to_string (.bool true) = .ok "#t"
    ∧ readString "#t" = .ok (.bool true, [])
    ∧ to_string (.int 42) = .ok "42"
    ∧ readString "42" = .ok (.int 42, []) :=
  ⟨rfl, by with_unfolding_all rfl, rfl, by with_unfolding_all rfl, by with_unfolding_all rfl,
   by with_unfolding_all rfl⟩

/-- C9: during reading, ANY token whose characters form a contiguous
substring of the sentinel text `#<eof-object>` is diverted by
`token in eof_object` into the `unexpected EOF in list` SyntaxError instead
of reaching `atom` — Python's `in` on two strings is substring containment,
not the identity test the sentinel requires. -/
theorem spec_eof_substring_tokens (f : Nat) (t : String) (ts : List String)
    (hsub : containsChars t.data eofText.data = true) :
    readAhead (f + 1) t ts = .error (.syntaxError "unexpected EOF in list") := by
  have h1 : ¬ t = "(" := by rintro rfl; revert hsub; decide
  have h2 : ¬ t = ")" := by rintro rfl; revert hsub; decide
  have hq : quoteOf t = Option.none := by
    have q1 : ¬ t = "'" := by rintro rfl; revert hsub; decide
    have q2 : ¬ t = "`" := by rintro rfl; revert hsub; decide
    have q3 : ¬ t = "," := by rintro rfl; revert hsub; decide
    have q4 : ¬ t = ",@" := by rintro rfl; revert hsub; decide
    simp [quoteOf, q1, q2, q3, q4]
  simp [readAhead, h1, h2, hq, inEofObject, hsub]

/-- Witness for C9 at the one-letter token `e`: it is a substring of the
sentinel, and reading it as a list element raises the EOF SyntaxError. -/
theorem spec_eof_substring_tokens_witness :
    containsChars "e".data eofText.data = true
    ∧ readAhead 5 "e" [")"] = .error (.syntaxError "unexpected EOF in list") :=
  ⟨by decide, spec_eof_substring_tokens 4 "e" [")"] (by decide)⟩

theorem bindPairs_eq : ∀ (ps : List (String × Value)) (f : Frame),
    bindPairs f ps = ps.reverse ++ f := by
  intro ps
  induction ps with
  | nil => intro f; rfl
  | cons p ps ih =>
    intro f
    show bindPairs (Frame.insert f p.1 p.2) ps = _
    rw [ih]
    simp [Frame.insert]

theorem frameGet_append (a b : Frame) (k : String) :
    Frame.get (a ++ b) k
      = (match Frame.get a k with
         | some v => some v
         | Option.none => Frame.get b k) := by
  induction a with
  | nil => simp [Frame.get]
  | cons p a ih =>
    obtain ⟨k', v⟩ := p
    by_cases h : k' = k <;> simp [Frame.get, h, ih]

theorem frameGet_eq_none (l : Frame) (k : String) (h : ∀ p ∈ l, p.1 ≠ k) :
    Frame.get l k = Option.none := by
  induction l with
  | nil => rfl
  | cons p l ih =>
    obtain ⟨k', v⟩ := p
    have hk : k' ≠ k := h (k', v) (by simp)
    simp [Frame.get, hk]
    exact ih fun q hq => h q (by simp [hq])

theorem frameGet_nodup (l : Frame) (k : String) (v : Value)
    (hnd : (l.map Prod.fst).Nodup) (hm : (k, v) ∈ l) : Frame.get l k = some v := by
  induction l with
  | nil => cases hm
  | cons p l ih =>
    obtain ⟨k', v'⟩ := p
    rcases List.mem_cons.mp hm with heq | htail
    · injection heq with h1 h2
      subst h1
      subst h2
      simp [Frame.get]
    · have hk : k' ≠ k := by
        intro hkk
        subst hkk
        have : k' ∈ l.map Prod.fst := List.mem_map.mpr ⟨(k', v), htail, rfl⟩
        exact (List.nodup_cons.mp hnd).1 this
      simp [Frame.get, hk]
      exact ih (List.nodup_cons.mp hnd).2 htail

theorem mapFst_zip_sublist : ∀ (l1 : List String) (l2 : List Value),
    ((l1.zip l2).map Prod.fst).Sublist l1 := by
  intro l1
  induction l1 with
  | nil => intro l2; simp
  | cons a l1 ih =>
    intro l2
    cases l2 with
    | nil => simp
    | cons b l2 =>
      simp only [List.zip_cons_cons, List.map_cons]
      exact (ih l2).cons₂ a

/-- C10: when a closure's parameter specification is a single symbol, the
invocation frame binds that symbol to the whole argument list AND, because
`self.update(zip(parms, args))` runs unconditionally after the variadic
branch of `Env.__init__`, each single-character name from the symbol's
spelling to the corresponding positional argument (truncated zip, later
duplicate characters overwriting earlier ones — excluded here by the
no-duplicate hypothesis; a one-character spelling is excluded from the
whole-list conjunct because its zip binding overwrites it). -/
theorem spec_variadic_char_zip (spelling : String) (args : List Value)
    (hnd : spelling.data.Nodup) :
    ∃ fr, envInit (.sym spelling) args = .ok fr
      ∧ (spelling.length ≠ 1 → Frame.get fr spelling = some (.list args))
      ∧ (∀ i (hia : i < args.length) (his : i < spelling.data.length),
          Frame.get fr (String.mk [spelling.data.get ⟨i, his⟩])
            = some (args.get ⟨i, hia⟩)) := by
  refine ⟨_, rfl, ?_, ?_⟩
  · intro hlen
    rw [bindPairs_eq, frameGet_append]
    have hnone : Frame.get
        ((spelling.data.map fun c => String.mk [c]).zip args).reverse spelling
        = Option.none := by
      apply frameGet_eq_none
      intro p hp
      obtain ⟨x, y⟩ := p
      have hp' := List.mem_reverse.mp hp
      have hx := (List.of_mem_zip hp').1
      obtain ⟨c, _, rfl⟩ := List.mem_map.mp hx
      intro h
      apply hlen
      rw [← h]
      rfl
    simp [hnone, Frame.insert, Frame.get]
  · intro i hia his
    rw [bindPairs_eq, frameGet_append]
    have hmem : (String.mk [spelling.data.get ⟨i, his⟩], args.get ⟨i, hia⟩)
        ∈ (spelling.data.map fun c => String.mk [c]).zip args := by
      have hzl : i < ((spelling.data.map fun c => String.mk [c]).zip args).length := by
        rw [List.length_zip, List.length_map]
        omega
      have := List.getElem_mem hzl
      simpa [List.getElem_zip, List.getElem_map] using this
    have hkeys :
        ((((spelling.data.map fun c => String.mk [c]).zip args).map Prod.fst)).Nodup := by
      apply List.Nodup.sublist (mapFst_zip_sublist _ _)
      apply List.Nodup.map _ hnd
      intro c c' h
      have := congrArg String.data h
      simpa using this
    have hrev : Frame.get
        (((spelling.data.map fun c => String.mk [c]).zip args).reverse)
        (String.mk [spelling.data.get ⟨i, his⟩]) = some (args.get ⟨i, hia⟩) := by
      apply frameGet_nodup
      · rw [List.map_reverse]
        exact List.nodup_reverse.mpr hkeys
      · exact List.mem_reverse.mpr hmem
    simp only [List.get_eq_getElem] at hrev
    simp [hrev]

/-- Witness for C10: `(lambda args ...)` applied to 1 and 2 yields a frame
binding `args` to `[1, 2]`, `a` to `1` and `r` to `2`. -/
theorem spec_variadic_char_zip_witness :
    ∃ fr, envInit (.sym "args") [.int 1, .int 2] = .ok fr
      ∧ Frame.get fr "args" = some (.list [.int 1, .int 2])
      ∧ Frame.get fr "a" = some (.int 1)
      ∧ Frame.get fr "r" = some (.int 2) := by
  obtain ⟨fr, hfr, hfull, hchar⟩ :=
    spec_variadic_char_zip "args" [.int 1, .int 2] (by decide)
  exact ⟨fr, hfr, hfull (by decide), hchar 0 (by decide) (by decide),
    hchar 1 (by decide) (by decide)⟩

/-- Counterexample for C1 at the `lis.py` evaluator (also named by the
claim): after the same `(define loop ...)`, a recursion-depth budget of 10
completes the countdown from 2 but overflows (RecursionError) on the
countdown from 20 — the selected `if` branch and the applied closure body
are recursive `eval` calls, not continuations of a loop, so the stack the
recursive evaluator needs grows with the starting count instead of staying
constant. -/
theorem spec_tail_call_lis_counterexample :
    lisEvalD 30 10 defL 0 store0 = .ok (.none, lisStore1)
    ∧ (lisEvalD 200 10 (callX 2) 0 lisStore1).toOption.map Prod.fst = some (.int 0)
    ∧ lisEvalD 300 10 (callX 20) 0 lisStore1 = .error .recursionError :=
  ⟨by with_unfolding_all rfl, by with_unfolding_all rfl, by with_unfolding_all rfl⟩
